import Mathlib

/-!
Verification of the `git-re` session orchestrator against its specification.

The development shallowly embeds the Python sources (`git_re.py`,
`lib/git.py`, `lib/log.py`) into Lean:

* the `Git` adapter methods become pure functions over an explicit
  environment `GitEnv` that records the exit code each underlying `git`
  process would return (and the stdout of `git stash list`);
* every adapter call is recorded in an effect trace `Eff` holding the list
  of actually-executed process invocations (`GitOp`) and the emitted log
  messages (`Msg`), mirroring `subprocess.run` and the `Log` class;
* the three flows (`_edit_flow`, `_done_flow`, `_abort_flow`) and `main`
  become functions from arguments and environment to a `FlowOut` (exit
  code plus effect trace).

Python-specific behaviours are embedded explicitly: `None` returned by the
adapter in dry-run mode (so `x == Git.Result.FAILED` is false for `None`),
truthiness of the optional commit argument, `str.splitlines`,
`str.split(":", 1)[0]`, the `in` substring test, and `shlex.quote`.
-/

namespace GitRe

/-- Embedding of Python `"needle" in haystack` on explicit character lists:
`needle` occurs as a contiguous sublist of `haystack`. -/
def subList (needle : List Char) : List Char → Bool
  | [] => needle.isEmpty
  | c :: cs => needle.isPrefixOf (c :: cs) || subList needle cs

/-- Embedding of the Python substring test `needle in hay`. -/
def strContainsSub (hay needle : String) : Bool :=
  subList needle.toList hay.toList

/-- Embedding of Python `str.splitlines` on a character list, for strings
whose only line separator is a bare newline (the only case arising from
`git stash list` output): the empty string gives no lines, and a trailing
newline does not produce a final empty line. -/
def splitlinesList : List Char → List String
  | [] => []
  | c :: cs =>
      if c = '\n' then String.mk [] :: splitlinesList cs
      else
        match splitlinesList cs with
        | [] => [String.mk [c]]
        | l :: ls => String.mk (c :: l.toList) :: ls

/-- Embedding of Python `str.splitlines` (newline separators only). -/
def splitlines (s : String) : List String :=
  splitlinesList s.toList

/-- Character-list form of Python `line.split(":", 1)[0]`. -/
def pySplitFirstList : List Char → List Char
  | [] => []
  | c :: cs => if c = ':' then [] else c :: pySplitFirstList cs

/-- Embedding of Python `line.split(":", 1)[0]`: the text before the first
colon, or the whole string if it has no colon. -/
def pySplitFirst (s : String) : String :=
  String.mk (pySplitFirstList s.toList)

/-- Characters `shlex.quote` regards as safe: ASCII alphanumerics,
underscore, and `@ % + = : , .` plus slash and dash. -/
def shlexSafe (c : Char) : Bool :=
  "abcdefghijklmnopqrstuvwxyzABCDEFGHIJKLMNOPQRSTUVWXYZ0123456789_@%+=:,./-".contains c

/-- Embedding of Python `shlex.quote`. -/
def shlexQuote (s : String) : String :=
  if s = "" then "\x27\x27"
  else if s.toList.all shlexSafe then s
  else "\x27" ++ (s.replace "\x27" "\x27\"\x27\"\x27") ++ "\x27"

/-- Marker annotation used by the tool for the stash entries it creates
(the literal `"git-re--stash"` in `stash_staged` and `stash_id`). -/
def STASH_NAME : String := "git-re--stash"

/-- Python `"git-re--stash" in line`: the test `Git.stash_id` applies to
each line of the `git stash list` output. -/
def markerIn (line : String) : Bool :=
  strContainsSub line STASH_NAME

/-- Result enum of the `Git` wrapper (`Git.Result`). -/
inductive Result
  | FAILED
  | SUCCESS
  | DRY_RUN
deriving DecidableEq

/-- Identification the spec makes between the adapter's returned value and
its three-valued Operation Outcome: the Python methods return `None` when
execution is suppressed by dry-run mode, which the spec names `DryRun`. -/
def adapterOutcome : Option Result → Result
  | none => Result.DRY_RUN
  | some r => r

/-- Tags for the fixed catalog of git operations the adapter can issue;
each corresponds to exactly one command built by a `Git` method. -/
inductive GitOp
  | rebaseEdit (commit : String)
  | continueRebase
  | abortRebase
  | hasStaged
  | stashStaged
  | popStash
  | stashList
  | dropStash (id : String)
  | amendCommit
deriving DecidableEq

/-- Sequence editor string built in `Git.rebase_edit`
(`sed -i '' -e "\s/^pick /edit /"`). -/
def seqEditor : String :=
  "sed -i \x27\x27 -e \"\\s/^pick /edit /\""

/-- Argument list (after `git`) each `Git` method passes to `_run_git`. -/
def cmdOf : GitOp → List String
  | .rebaseEdit c =>
      ["-c", "sequence.editor=" ++ seqEditor, "rebase", "-i", c ++ "^"]
  | .continueRebase => ["rebase", "--continue"]
  | .abortRebase => ["rebase", "--abort"]
  | .hasStaged => ["diff", "--cached", "--quiet"]
  | .stashStaged => ["stash", "push", "--keep-index", "-m", STASH_NAME]
  | .popStash => ["stash", "pop"]
  | .stashList => ["stash", "list"]
  | .dropStash id => ["stash", "drop", id]
  | .amendCommit => ["commit", "--amend", "--no-edit"]

/-- Fully-quoted command string logged by `_run_git`
(`" ".join(shlex.quote(part) for part in full_cmd)` with `full_cmd =
["git"] + cmd`). -/
def formattedCmd (op : GitOp) : String :=
  String.intercalate " " (("git" :: cmdOf op).map shlexQuote)

/-- Mirror of `subprocess.CompletedProcess`: the exit code and captured
stdout of one executed git process. -/
structure CompletedProcess where
  returncode : Int
  stdout : String
deriving DecidableEq

/-- Environment: the exit code each git operation would return when
actually executed, and the stdout of `git stash list`. The sources read no
other stdout, so other commands' output is irrelevant. -/
structure GitEnv where
  rebaseEditEC : Int
  continueEC : Int
  abortEC : Int
  hasStagedEC : Int
  stashPushEC : Int
  popEC : Int
  dropEC : Int
  amendEC : Int
  stashListOut : String
deriving DecidableEq

/-- Exit code the environment assigns to an operation. -/
def ecOf (env : GitEnv) : GitOp → Int
  | .rebaseEdit _ => env.rebaseEditEC
  | .continueRebase => env.continueEC
  | .abortRebase => env.abortEC
  | .hasStaged => env.hasStagedEC
  | .stashStaged => env.stashPushEC
  | .popStash => env.popEC
  | .stashList => 0
  | .dropStash _ => env.dropEC
  | .amendCommit => env.amendEC

/-- Stdout the environment assigns to an operation. -/
def outOf (env : GitEnv) : GitOp → String
  | .stashList => env.stashListOut
  | _ => ""

/-- Messages emitted through the `Log` class, tagged by channel. -/
inductive Msg
  | info (s : String)
  | error (s : String)
  | debug (s : String)
deriving DecidableEq

/-- Predicate for error-channel messages. -/
def isError : Msg → Bool
  | .error _ => true
  | _ => false

/-- Effect trace of one invocation: the git processes actually executed
(`subprocess.run` calls — empty in dry-run mode) and the log messages
actually printed. -/
structure Eff where
  ops : List GitOp
  logs : List Msg
deriving DecidableEq

instance : Append Eff := ⟨fun a b => ⟨a.ops ++ b.ops, a.logs ++ b.logs⟩⟩

@[simp] theorem Eff.ops_append (a b : Eff) : (a ++ b).ops = a.ops ++ b.ops := rfl

@[simp] theorem Eff.logs_append (a b : Eff) : (a ++ b).logs = a.logs ++ b.logs := rfl

/-- Configuration derived from the parsed arguments: `Git.dry_run` and
`Log.verbose` (the latter is `args.verbose or args.dry_run`). -/
structure Ctx where
  dryRun : Bool
  logVerbose : Bool
deriving DecidableEq

/-- Effect of `log.info`. -/
def logInfo (s : String) : Eff := ⟨[], [Msg.info s]⟩

/-- Effect of `log.error`. -/
def logError (s : String) : Eff := ⟨[], [Msg.error s]⟩

/-- Effect of `log.debug`: prints only when verbose mode is enabled. -/
def logDebug (ctx : Ctx) (s : String) : Eff :=
  ⟨[], if ctx.logVerbose then [Msg.debug s] else []⟩

/-- Embedding of `Git._run_git` (identically `Git._exec_git`) without an
expected exit code: logs the quoted command with prefix `"# "` (dry-run)
or `"> "` (live), then either suppresses execution returning `None`
(embedded as `none`) or runs the process. -/
def run_git_raw (ctx : Ctx) (env : GitEnv) (op : GitOp) :
    Option CompletedProcess × Eff :=
  let line := (if ctx.dryRun then "# " else "> ") ++ formattedCmd op
  if ctx.dryRun then (none, logDebug ctx line)
  else (some ⟨ecOf env op, outOf env op⟩, logDebug ctx line ++ ⟨[op], []⟩)

/-- Embedding of `Git._run_git` with an expected exit code: reduces the
process result to `SUCCESS` when the exit code matches the expectation and
`FAILED` otherwise; in dry-run mode returns `None` (embedded as `none`). -/
def run_git (ctx : Ctx) (env : GitEnv) (op : GitOp) (expected : Int) :
    Option Result × Eff :=
  let c := run_git_raw ctx env op
  match c.1 with
  | none => (none, c.2)
  | some p =>
      (some (if p.returncode = expected then Result.SUCCESS else Result.FAILED), c.2)

/-- Embedding of `Git.rebase_edit`. -/
def rebase_edit (ctx : Ctx) (env : GitEnv) (commit : String) :
    Option Result × Eff :=
  run_git ctx env (.rebaseEdit commit) 0

/-- Embedding of `Git.continue_rebase`. -/
def continue_rebase (ctx : Ctx) (env : GitEnv) : Option Result × Eff :=
  run_git ctx env .continueRebase 0

/-- Embedding of `Git.abort_rebase`. -/
def abort_rebase (ctx : Ctx) (env : GitEnv) : Option Result × Eff :=
  run_git ctx env .abortRebase 0

/-- Embedding of `Git.has_staged`: note the inverted expectation, exit
code 1 of `git diff --cached --quiet` means staged differences exist. -/
def has_staged (ctx : Ctx) (env : GitEnv) : Option Result × Eff :=
  run_git ctx env .hasStaged 1

/-- Embedding of `Git.stash_staged`. -/
def stash_staged (ctx : Ctx) (env : GitEnv) : Option Result × Eff :=
  run_git ctx env .stashStaged 0

/-- Embedding of `Git.pop_stash`. -/
def pop_stash (ctx : Ctx) (env : GitEnv) : Option Result × Eff :=
  run_git ctx env .popStash 0

/-- Scan loop of `Git.stash_id` over the lines of the `git stash list`
output: the first line containing the marker yields its text before the
first colon. -/
def stash_id_lines : List String → Option String
  | [] => none
  | l :: ls => if markerIn l then some (pySplitFirst l) else stash_id_lines ls

/-- Embedding of `Git.stash_id`: runs `git stash list` (without expected
exit code), returns `None` in dry-run mode, otherwise scans the stdout. -/
def stash_id (ctx : Ctx) (env : GitEnv) : Option String × Eff :=
  let c := run_git_raw ctx env .stashList
  match c.1 with
  | none => (none, c.2)
  | some p => (stash_id_lines (splitlines p.stdout), c.2)

/-- Embedding of `Git.drop_stash`. -/
def drop_stash (ctx : Ctx) (env : GitEnv) (id : String) : Option Result × Eff :=
  run_git ctx env (.dropStash id) 0

/-- Embedding of `Git.amend_commit`. -/
def amend_commit (ctx : Ctx) (env : GitEnv) : Option Result × Eff :=
  run_git ctx env .amendCommit 0

/-- Embedding of `cleanup_stash` (`lib/git.py`, identically
`_cleanup_stash` in `git_re.py`): look up the marker entry, and when one
is found drop it, downgrading a drop failure to a logged warning. -/
def cleanup_stash (ctx : Ctx) (env : GitEnv) : Eff :=
  let s := stash_id ctx env
  match s.1 with
  | none => s.2
  | some t =>
      let d := drop_stash ctx env t
      if d.1 = some Result.FAILED then
        s.2 ++ logDebug ctx "Removing leftover stash entry..." ++ d.2 ++
          logError "Warning: Failed to remove leftover stash entry."
      else
        s.2 ++ logDebug ctx "Removing leftover stash entry..." ++ d.2

/-- Parsed command-line arguments (`Args`). -/
structure Args where
  commit : Option String
  done : Bool
  abort : Bool
  stash : Bool
  verbose : Bool
  dryRun : Bool
deriving DecidableEq

/-- Configuration `main` builds from the arguments: `Git.dry_run` is
`args.dry_run` and `Log.verbose` is `args.verbose or args.dry_run`. -/
def mkCtx (args : Args) : Ctx :=
  ⟨args.dryRun, args.verbose || args.dryRun⟩

/-- Python truthiness of the optional commit argument (`if args.commit:`):
absent and empty strings are falsy. -/
def commitTruthy : Option String → Bool
  | none => false
  | some s => !(s = "")

/-- Python string conversion applied by the f-string in `rebase_edit` when
the commit argument reaches it (an absent commit renders as `"None"`). -/
def pyOptStr : Option String → String
  | none => "None"
  | some s => s

/-- Result of one tool invocation: the integer the flow returns (becoming
the process exit code) together with the effect trace. -/
structure FlowOut where
  exit : Int
  eff : Eff
deriving DecidableEq

/-- Embedding of `_done_flow`: amend the current commit, continue the
rebase, then clean up any leftover stash entry and report success. -/
def done_flow (ctx : Ctx) (env : GitEnv) : FlowOut :=
  let a := amend_commit ctx env
  if a.1 = some Result.FAILED then
    ⟨1, a.2 ++ logError "Error: Failed to amend the current commit."⟩
  else
    let c := continue_rebase ctx env
    if c.1 = some Result.FAILED then
      ⟨1, a.2 ++ c.2 ++
        logError "Error: Failed to finish rebase." ++
        logError "Error: + Fix any conflicts, then run \x27git re --done\x27." ++
        logError "Error: + To cancel the rebase, run \x27git re --abort\x27."⟩
    else
      ⟨0, a.2 ++ c.2 ++ cleanup_stash ctx env ++
        logInfo "Successfully amended commit and continued rebase."⟩

/-- Rebase section of `_edit_flow` (everything after the stash-mode
preamble, which in Python is straight-line code following the early
returns); `acc` is the effect trace accumulated by the preamble. -/
def edit_flow_rebase (args : Args) (ctx : Ctx) (env : GitEnv) (acc : Eff) :
    FlowOut :=
  let r := rebase_edit ctx env (pyOptStr args.commit)
  if r.1 = some Result.FAILED then
    let base := acc ++ r.2 ++ logError "Error: Failed to start interactive rebase."
    if args.stash then
      let d := logDebug ctx "Restoring stash..."
      let p := pop_stash ctx env
      if p.1 = some Result.FAILED then
        ⟨1, base ++ d ++ p.2 ++
          logError "Error: + Failed to restore stash after rebase failure." ++
          logError
            "Error: + To recover your stashed changes, check \x27git stash list\x27."⟩
      else ⟨1, base ++ d ++ p.2⟩
    else ⟨1, base⟩
  else
    if args.stash then
      let p := pop_stash ctx env
      if p.1 = some Result.FAILED then
        ⟨1, acc ++ r.2 ++ p.2 ++
          logError
            "Error: Failed to apply stash to commit. The changes are saved in the stash." ++
          logError "Error: + Fix any conflicts, then run \x27git re --done\x27." ++
          logError "Error: + To cancel the rebase, run \x27git re --abort\x27."⟩
      else
        let dOut := done_flow ctx env
        ⟨dOut.exit, acc ++ r.2 ++ p.2 ++ dOut.eff⟩
    else
      ⟨0, acc ++ r.2 ++
        logInfo "Rebase-editing. Stage your changes, then run \x27git re --done\x27."⟩

/-- Embedding of `_edit_flow`: optional stash-mode preamble (staged-change
check and stash push, each with an early failing return), then the rebase
section. -/
def edit_flow (args : Args) (ctx : Ctx) (env : GitEnv) : FlowOut :=
  if args.stash then
    let h := has_staged ctx env
    if h.1 = some Result.FAILED then
      ⟨1, h.2 ++ logError
        "Error: No staged files. Stage your changes with \x27git add\x27 before using --stash."⟩
    else
      let s := stash_staged ctx env
      if s.1 = some Result.FAILED then
        ⟨1, h.2 ++ s.2 ++ logError "Error: Failed to stash staged changes."⟩
      else edit_flow_rebase args ctx env (h.2 ++ s.2)
  else edit_flow_rebase args ctx env ⟨[], []⟩

/-- Embedding of `_abort_flow`. -/
def abort_flow (ctx : Ctx) (env : GitEnv) : FlowOut :=
  let a := abort_rebase ctx env
  if a.1 = some Result.FAILED then
    ⟨1, a.2 ++ logError "Error: Failed to abort rebase."⟩
  else
    ⟨0, a.2 ++ cleanup_stash ctx env ++ logInfo "Successfully aborted rebase."⟩

/-- Embedding of `main`: flag-conflict validation followed by dispatch to
exactly one flow. -/
def main (args : Args) (env : GitEnv) : FlowOut :=
  let ctx := mkCtx args
  if args.abort then
    if commitTruthy args.commit then
      ⟨1, logError "Error: --abort cannot be used with a commit argument"⟩
    else if args.stash then
      ⟨1, logError "Error: --abort cannot be used with --stash"⟩
    else if args.done then
      ⟨1, logError "Error: --abort cannot be used with --done"⟩
    else abort_flow ctx env
  else if args.done then
    if commitTruthy args.commit then
      ⟨1, logError "Error: --done cannot be used with a commit argument"⟩
    else if args.stash then
      ⟨1, logError "Error: --done cannot be used with --stash"⟩
    else done_flow ctx env
  else edit_flow args ctx env

/-! Model of the external stash stack, used to reason about repeated
cleanup invocations. Per the spec, a shelf listing is a sequence of
records `<index-token>: <annotation>`; the index token is opaque to the
tool and passed back verbatim to the drop operation, which removes the
entry it names. -/

/-- One entry of the external stash stack: its listing index token and its
annotation. -/
structure StashEntry where
  tok : String
  ann : String
deriving DecidableEq

/-- Listing line produced for a stash entry. -/
def entryLine (e : StashEntry) : String :=
  e.tok ++ ": " ++ e.ann

/-- Listing lines of a stash stack. -/
def linesOf (es : List StashEntry) : List String :=
  es.map entryLine

/-- Predicate for drop operations in a trace. -/
def isDropOp : GitOp → Bool
  | .dropStash _ => true
  | _ => false

/-- Index tokens the cleanup policy passes to drop-shelf-entry for a given
listing (at most one, by the shape of `cleanup_stash`): exactly the drop
operations `cleanup_stash` issues in live mode. -/
def cleanupDropIds (lines : List String) : List String :=
  match stash_id_lines lines with
  | some t => [t]
  | none => []

/-- Effect of a successful drop-shelf-entry on the external stash stack:
the entry whose index token matches is removed. -/
def gitDropStash (es : List StashEntry) (t : String) : List StashEntry :=
  es.eraseP (fun e => e.tok == t)

/-- External stash stack after one invocation of the cleanup policy whose
drop (if any) succeeds. -/
def afterCleanup (es : List StashEntry) : List StashEntry :=
  match stash_id_lines (linesOf es) with
  | some t => gitDropStash es t
  | none => es

@[simp] theorem linesOf_nil : linesOf [] = [] := rfl

@[simp] theorem linesOf_cons (e : StashEntry) (es : List StashEntry) :
    linesOf (e :: es) = entryLine e :: linesOf es := rfl

@[simp] theorem Eff.mk_append (o₁ : List GitOp) (l₁ : List Msg) (o₂ : List GitOp)
    (l₂ : List Msg) : (⟨o₁, l₁⟩ : Eff) ++ ⟨o₂, l₂⟩ = ⟨o₁ ++ o₂, l₁ ++ l₂⟩ := rfl

@[simp] theorem logDebug_ops (ctx : Ctx) (s : String) : (logDebug ctx s).ops = [] := rfl

@[simp] theorem logDebug_logs (ctx : Ctx) (s : String) :
    (logDebug ctx s).logs = if ctx.logVerbose then [Msg.debug s] else [] := rfl

@[simp] theorem isError_info (s : String) : isError (Msg.info s) = false := rfl

@[simp] theorem isError_error (s : String) : isError (Msg.error s) = true := rfl

@[simp] theorem isError_debug (s : String) : isError (Msg.debug s) = false := rfl

/-- Unfolding of `_run_git` without expectation in live mode. -/
theorem run_git_raw_live (ctx : Ctx) (env : GitEnv) (op : GitOp)
    (h : ctx.dryRun = false) :
    run_git_raw ctx env op =
      (some ⟨ecOf env op, outOf env op⟩,
       logDebug ctx ("> " ++ formattedCmd op) ++ ⟨[op], []⟩) := by
  simp [run_git_raw, h]

/-- Unfolding of `_run_git` without expectation in dry-run mode: nothing
executed, only the prefixed command log line. -/
theorem run_git_raw_dry (ctx : Ctx) (env : GitEnv) (op : GitOp)
    (h : ctx.dryRun = true) :
    run_git_raw ctx env op = (none, logDebug ctx ("# " ++ formattedCmd op)) := by
  simp [run_git_raw, h]

/-- Unfolding of `_run_git` with an expected exit code in live mode. -/
theorem run_git_live (ctx : Ctx) (env : GitEnv) (op : GitOp) (e : Int)
    (h : ctx.dryRun = false) :
    run_git ctx env op e =
      (some (if ecOf env op = e then Result.SUCCESS else Result.FAILED),
       logDebug ctx ("> " ++ formattedCmd op) ++ ⟨[op], []⟩) := by
  simp [run_git, run_git_raw_live ctx env op h]

/-- Unfolding of `_run_git` with an expected exit code in dry-run mode. -/
theorem run_git_dry (ctx : Ctx) (env : GitEnv) (op : GitOp) (e : Int)
    (h : ctx.dryRun = true) :
    run_git ctx env op e = (none, logDebug ctx ("# " ++ formattedCmd op)) := by
  simp [run_git, run_git_raw_dry ctx env op h]

/-- Unfolding of `Git.stash_id` in live mode. -/
theorem stash_id_live (ctx : Ctx) (env : GitEnv) (h : ctx.dryRun = false) :
    stash_id ctx env =
      (stash_id_lines (splitlines env.stashListOut),
       logDebug ctx ("> " ++ formattedCmd .stashList) ++ ⟨[GitOp.stashList], []⟩) := by
  simp [stash_id, run_git_raw_live ctx env .stashList h, outOf]

/-- Unfolding of `Git.stash_id` in dry-run mode. -/
theorem stash_id_dry (ctx : Ctx) (env : GitEnv) (h : ctx.dryRun = true) :
    stash_id ctx env = (none, logDebug ctx ("# " ++ formattedCmd .stashList)) := by
  simp [stash_id, run_git_raw_dry ctx env .stashList h]

/-- Processes executed by one live invocation of the cleanup policy: the
shelf listing followed by exactly the drops `cleanupDropIds` describes. -/
theorem cleanup_stash_ops_live (ctx : Ctx) (env : GitEnv) (h : ctx.dryRun = false) :
    (cleanup_stash ctx env).ops =
      GitOp.stashList ::
        (cleanupDropIds (splitlines env.stashListOut)).map GitOp.dropStash := by
  simp only [cleanup_stash, stash_id_live ctx env h]
  cases hs : stash_id_lines (splitlines env.stashListOut) with
  | none => simp [cleanupDropIds, hs]
  | some t =>
    simp only [cleanupDropIds, hs]
    split <;> simp [run_git_live ctx env (.dropStash t) 0 h, drop_stash, logError]

/-- Processes executed by one dry-run invocation of the cleanup policy:
none. -/
theorem cleanup_stash_ops_dry (ctx : Ctx) (env : GitEnv) (h : ctx.dryRun = true) :
    (cleanup_stash ctx env).ops = [] := by
  simp [cleanup_stash, stash_id_dry ctx env h]

/-- Characterization of the scan in `Git.stash_id` finding nothing: no
line contains the marker. -/
theorem stash_id_lines_eq_none (lines : List String) :
    stash_id_lines lines = none ↔ ∀ l ∈ lines, markerIn l = false := by
  induction lines with
  | nil => simp [stash_id_lines]
  | cons a as ih =>
    cases h : markerIn a with
    | true => simp [stash_id_lines, h]
    | false => simp [stash_id_lines, h, ih]

/-- Characterization of the scan in `Git.stash_id` finding a token: the
listing splits at a first marker-containing line, every earlier line is
marker-free, and the token is that line's text before the first colon. -/
theorem stash_id_lines_some_decomp (lines : List String) :
    ∀ t, stash_id_lines lines = some t →
      ∃ pre l post, lines = pre ++ l :: post ∧
        (∀ x ∈ pre, markerIn x = false) ∧ markerIn l = true ∧ pySplitFirst l = t := by
  induction lines with
  | nil => intro t h; simp [stash_id_lines] at h
  | cons a as ih =>
    intro t h
    cases hm : markerIn a with
    | true =>
      refine ⟨[], a, as, by simp, by simp, hm, ?_⟩
      have : some (pySplitFirst a) = some t := by
        simpa [stash_id_lines, hm] using h
      exact Option.some.inj this
    | false =>
      have h' : stash_id_lines as = some t := by
        simpa [stash_id_lines, hm] using h
      obtain ⟨pre, l, post, e1, e2, e3, e4⟩ := ih t h'
      exact ⟨a :: pre, l, post, by simp [e1],
        by simpa [List.forall_mem_cons, hm] using e2, e3, e4⟩

@[simp] theorem adapterOutcome_none : adapterOutcome none = Result.DRY_RUN := rfl

@[simp] theorem adapterOutcome_some (r : Result) : adapterOutcome (some r) = r := rfl

/-- Claim C3: every adapter operation with an expected exit code
(start-edit, continue, abort, has-staged-changes, shelve-staged,
restore-shelf, drop-shelf-entry, amend-head) yields exactly one of the
three Operation Outcomes: `DRY_RUN` (realized in the source as the `None`
return, per the spec the suppressed-execution outcome) exactly when
dry-run mode is on, otherwise `SUCCESS` exactly when the process exit code
equals the operation's expected code and `FAILED` when it differs. -/
theorem c3_adapter_tristate (ctx : Ctx) (env : GitEnv) (c id : String) :
    (adapterOutcome (rebase_edit ctx env c).1 =
        (if ctx.dryRun then Result.DRY_RUN
         else if env.rebaseEditEC = 0 then Result.SUCCESS else Result.FAILED) ∧
      ((rebase_edit ctx env c).1 = none ↔ ctx.dryRun = true)) ∧
    (adapterOutcome (continue_rebase ctx env).1 =
        (if ctx.dryRun then Result.DRY_RUN
         else if env.continueEC = 0 then Result.SUCCESS else Result.FAILED) ∧
      ((continue_rebase ctx env).1 = none ↔ ctx.dryRun = true)) ∧
    (adapterOutcome (abort_rebase ctx env).1 =
        (if ctx.dryRun then Result.DRY_RUN
         else if env.abortEC = 0 then Result.SUCCESS else Result.FAILED) ∧
      ((abort_rebase ctx env).1 = none ↔ ctx.dryRun = true)) ∧
    (adapterOutcome (has_staged ctx env).1 =
        (if ctx.dryRun then Result.DRY_RUN
         else if env.hasStagedEC = 1 then Result.SUCCESS else Result.FAILED) ∧
      ((has_staged ctx env).1 = none ↔ ctx.dryRun = true)) ∧
    (adapterOutcome (stash_staged ctx env).1 =
        (if ctx.dryRun then Result.DRY_RUN
         else if env.stashPushEC = 0 then Result.SUCCESS else Result.FAILED) ∧
      ((stash_staged ctx env).1 = none ↔ ctx.dryRun = true)) ∧
    (adapterOutcome (pop_stash ctx env).1 =
        (if ctx.dryRun then Result.DRY_RUN
         else if env.popEC = 0 then Result.SUCCESS else Result.FAILED) ∧
      ((pop_stash ctx env).1 = none ↔ ctx.dryRun = true)) ∧
    (adapterOutcome (drop_stash ctx env id).1 =
        (if ctx.dryRun then Result.DRY_RUN
         else if env.dropEC = 0 then Result.SUCCESS else Result.FAILED) ∧
      ((drop_stash ctx env id).1 = none ↔ ctx.dryRun = true)) ∧
    (adapterOutcome (amend_commit ctx env).1 =
        (if ctx.dryRun then Result.DRY_RUN
         else if env.amendEC = 0 then Result.SUCCESS else Result.FAILED) ∧
      ((amend_commit ctx env).1 = none ↔ ctx.dryRun = true)) := by
  cases hd : ctx.dryRun with
  | true =>
    simp [rebase_edit, continue_rebase, abort_rebase, has_staged, stash_staged,
      pop_stash, drop_stash, amend_commit, run_git_dry _ _ _ _ hd]
  | false =>
    simp [rebase_edit, continue_rebase, abort_rebase, has_staged, stash_staged,
      pop_stash, drop_stash, amend_commit, run_git_live _ _ _ _ hd, ecOf]

/-- Claim C4: each of the five conflicting flag combinations (abort with a
truthy commit argument, abort with stash, abort with done, done with a
truthy commit argument, done with stash) makes `main` return exit code 1
with exactly one error message naming both conflicting options and with an
empty process trace (no flow and no git operation runs). -/
theorem c4_flag_conflicts (args : Args) (env : GitEnv) :
    (args.abort = true → commitTruthy args.commit = true →
      main args env =
        ⟨1, ⟨[], [Msg.error "Error: --abort cannot be used with a commit argument"]⟩⟩) ∧
    (args.abort = true → commitTruthy args.commit = false → args.stash = true →
      main args env =
        ⟨1, ⟨[], [Msg.error "Error: --abort cannot be used with --stash"]⟩⟩) ∧
    (args.abort = true → commitTruthy args.commit = false → args.stash = false →
      args.done = true →
      main args env =
        ⟨1, ⟨[], [Msg.error "Error: --abort cannot be used with --done"]⟩⟩) ∧
    (args.abort = false → args.done = true → commitTruthy args.commit = true →
      main args env =
        ⟨1, ⟨[], [Msg.error "Error: --done cannot be used with a commit argument"]⟩⟩) ∧
    (args.abort = false → args.done = true → commitTruthy args.commit = false →
      args.stash = true →
      main args env =
        ⟨1, ⟨[], [Msg.error "Error: --done cannot be used with --stash"]⟩⟩) := by
  refine ⟨?_, ?_, ?_, ?_, ?_⟩ <;>
    · intros
      simp [main, logError, *]

/-- Witness for C4 at concrete argument vectors. -/
theorem c4_flag_conflicts_witness :
    (main ⟨some "abc", false, true, false, false, false⟩ ⟨0,0,0,0,0,0,0,0,""⟩ =
      ⟨1, ⟨[], [Msg.error "Error: --abort cannot be used with a commit argument"]⟩⟩) ∧
    (main ⟨none, false, true, true, false, false⟩ ⟨0,0,0,0,0,0,0,0,""⟩ =
      ⟨1, ⟨[], [Msg.error "Error: --abort cannot be used with --stash"]⟩⟩) ∧
    (main ⟨none, true, true, false, false, false⟩ ⟨0,0,0,0,0,0,0,0,""⟩ =
      ⟨1, ⟨[], [Msg.error "Error: --abort cannot be used with --done"]⟩⟩) ∧
    (main ⟨some "abc", true, false, false, false, false⟩ ⟨0,0,0,0,0,0,0,0,""⟩ =
      ⟨1, ⟨[], [Msg.error "Error: --done cannot be used with a commit argument"]⟩⟩) ∧
    (main ⟨none, true, false, true, false, false⟩ ⟨0,0,0,0,0,0,0,0,""⟩ =
      ⟨1, ⟨[], [Msg.error "Error: --done cannot be used with --stash"]⟩⟩) := by
  refine ⟨(c4_flag_conflicts _ _).1 rfl (by decide),
    (c4_flag_conflicts _ _).2.1 rfl (by decide) rfl,
    (c4_flag_conflicts _ _).2.2.1 rfl (by decide) rfl rfl,
    (c4_flag_conflicts _ _).2.2.2.1 rfl rfl (by decide),
    (c4_flag_conflicts _ _).2.2.2.2 rfl rfl (by decide) rfl⟩

@[simp] theorem filter_isError_ite_debug (c : Prop) [Decidable c] (s : String) :
    (if c then [Msg.debug s] else []).filter isError = [] := by
  split <;> simp

/-- Claim C6: in the live Finalize flow a failed amend prevents the
continue operation entirely and fails the flow with a single error; a
failed continue after a successful amend fails the flow with exactly the
three guidance messages; on full success the cleanup policy runs (the
shelf listing is issued) and the flow succeeds. -/
theorem c6_done_flow (ctx : Ctx) (env : GitEnv) (hdr : ctx.dryRun = false) :
    (env.amendEC ≠ 0 →
      (done_flow ctx env).exit = 1 ∧
      GitOp.continueRebase ∉ (done_flow ctx env).eff.ops ∧
      (done_flow ctx env).eff.logs.filter isError =
        [Msg.error "Error: Failed to amend the current commit."]) ∧
    (env.amendEC = 0 → env.continueEC ≠ 0 →
      (done_flow ctx env).exit = 1 ∧
      (done_flow ctx env).eff.logs.filter isError =
        [Msg.error "Error: Failed to finish rebase.",
         Msg.error "Error: + Fix any conflicts, then run \x27git re --done\x27.",
         Msg.error "Error: + To cancel the rebase, run \x27git re --abort\x27."]) ∧
    (env.amendEC = 0 → env.continueEC = 0 →
      (done_flow ctx env).exit = 0 ∧
      GitOp.stashList ∈ (done_flow ctx env).eff.ops) := by
  refine ⟨?_, ?_, ?_⟩
  · intro hA
    simp [done_flow, amend_commit, run_git_live _ _ _ _ hdr, ecOf, hA, logError]
  · intro hA hC
    simp [done_flow, amend_commit, continue_rebase, run_git_live _ _ _ _ hdr,
      ecOf, hA, hC, logError]
  · intro hA hC
    refine ⟨?_, ?_⟩ <;>
      simp [done_flow, amend_commit, continue_rebase, run_git_live _ _ _ _ hdr,
        ecOf, hA, hC, logInfo, cleanup_stash_ops_live ctx env hdr]

/-- Witness for C6 at concrete environments (amend fails; amend succeeds
but continue fails; both succeed). -/
theorem c6_done_flow_witness :
    ((done_flow ⟨false, false⟩ ⟨0,0,0,1,0,0,0,7,""⟩).exit = 1 ∧
      GitOp.continueRebase ∉ (done_flow ⟨false, false⟩ ⟨0,0,0,1,0,0,0,7,""⟩).eff.ops ∧
      (done_flow ⟨false, false⟩ ⟨0,0,0,1,0,0,0,7,""⟩).eff.logs.filter isError =
        [Msg.error "Error: Failed to amend the current commit."]) ∧
    ((done_flow ⟨false, false⟩ ⟨0,9,0,1,0,0,0,0,""⟩).exit = 1 ∧
      (done_flow ⟨false, false⟩ ⟨0,9,0,1,0,0,0,0,""⟩).eff.logs.filter isError =
        [Msg.error "Error: Failed to finish rebase.",
         Msg.error "Error: + Fix any conflicts, then run \x27git re --done\x27.",
         Msg.error "Error: + To cancel the rebase, run \x27git re --abort\x27."]) ∧
    ((done_flow ⟨false, false⟩ ⟨0,0,0,1,0,0,0,0,""⟩).exit = 0 ∧
      GitOp.stashList ∈ (done_flow ⟨false, false⟩ ⟨0,0,0,1,0,0,0,0,""⟩).eff.ops) := by
  exact ⟨(c6_done_flow ⟨false, false⟩ ⟨0,0,0,1,0,0,0,7,""⟩ rfl).1 (by decide),
    (c6_done_flow ⟨false, false⟩ ⟨0,9,0,1,0,0,0,0,""⟩ rfl).2.1 rfl (by decide),
    (c6_done_flow ⟨false, false⟩ ⟨0,0,0,1,0,0,0,0,""⟩ rfl).2.2 rfl rfl⟩

/-- Claim C7: in live mode, the Start-Edit flow with shelving requested
and no staged changes (the staged-diff check exits 0, reporting no
differences) fails with the no-staged-files error after executing only the
staged-diff check: neither the shelve-push nor the rebase-start process is
invoked. -/
theorem c7_no_staged_changes (args : Args) (ctx : Ctx) (env : GitEnv)
    (hst : args.stash = true) (hdr : ctx.dryRun = false)
    (h0 : env.hasStagedEC = 0) :
    (edit_flow args ctx env).exit = 1 ∧
    (edit_flow args ctx env).eff.ops = [GitOp.hasStaged] ∧
    (edit_flow args ctx env).eff.logs.filter isError =
      [Msg.error
        "Error: No staged files. Stage your changes with \x27git add\x27 before using --stash."] := by
  simp [edit_flow, has_staged, run_git_live _ _ _ _ hdr, ecOf, hst, h0, logError]

/-- Witness for C7 at a concrete argument vector and environment. -/
theorem c7_no_staged_changes_witness :
    (edit_flow ⟨some "abc", false, false, true, false, false⟩ ⟨false, false⟩
        ⟨0,0,0,0,0,0,0,0,""⟩).exit = 1 ∧
    (edit_flow ⟨some "abc", false, false, true, false, false⟩ ⟨false, false⟩
        ⟨0,0,0,0,0,0,0,0,""⟩).eff.ops = [GitOp.hasStaged] ∧
    (edit_flow ⟨some "abc", false, false, true, false, false⟩ ⟨false, false⟩
        ⟨0,0,0,0,0,0,0,0,""⟩).eff.logs.filter isError =
      [Msg.error
        "Error: No staged files. Stage your changes with \x27git add\x27 before using --stash."] :=
  c7_no_staged_changes ⟨some "abc", false, false, true, false, false⟩ ⟨false, false⟩
    ⟨0,0,0,0,0,0,0,0,""⟩ rfl rfl rfl

/-- Claim C5: in the live Start-Edit flow with shelving requested, staged
changes present and a successful shelve, a failed rebase-start triggers
exactly one restore (shelf-pop) attempt and the flow fails; if the restore
succeeds only the rebase-start failure is reported, and if the restore
also fails exactly two further warnings (restore failure and
manual-recovery instructions) are emitted, with no second restore
attempt. -/
theorem c5_single_restore_attempt (args : Args) (ctx : Ctx) (env : GitEnv)
    (hst : args.stash = true) (hdr : ctx.dryRun = false)
    (hstg : env.hasStagedEC = 1) (hpush : env.stashPushEC = 0)
    (hreb : env.rebaseEditEC ≠ 0) :
    (edit_flow args ctx env).exit = 1 ∧
    ((edit_flow args ctx env).eff.ops.count GitOp.popStash) = 1 ∧
    (env.popEC = 0 →
      (edit_flow args ctx env).eff.logs.filter isError =
        [Msg.error "Error: Failed to start interactive rebase."]) ∧
    (env.popEC ≠ 0 →
      (edit_flow args ctx env).eff.logs.filter isError =
        [Msg.error "Error: Failed to start interactive rebase.",
         Msg.error "Error: + Failed to restore stash after rebase failure.",
         Msg.error
           "Error: + To recover your stashed changes, check \x27git stash list\x27."]) := by
  by_cases hp : env.popEC = 0 <;>
    simp [edit_flow, edit_flow_rebase, has_staged, stash_staged, rebase_edit,
      pop_stash, run_git_live _ _ _ _ hdr, ecOf, hst, hstg, hpush, hreb, hp,
      logError, List.count_cons]

/-- Witness for C5 at a concrete argument vector and an environment where
both the rebase-start and the restore fail. -/
theorem c5_single_restore_attempt_witness :
    (edit_flow ⟨some "abc", false, false, true, false, false⟩ ⟨false, false⟩
        ⟨5,0,0,1,0,3,0,0,""⟩).exit = 1 ∧
    ((edit_flow ⟨some "abc", false, false, true, false, false⟩ ⟨false, false⟩
        ⟨5,0,0,1,0,3,0,0,""⟩).eff.ops.count GitOp.popStash) = 1 ∧
    (edit_flow ⟨some "abc", false, false, true, false, false⟩ ⟨false, false⟩
        ⟨5,0,0,1,0,3,0,0,""⟩).eff.logs.filter isError =
      [Msg.error "Error: Failed to start interactive rebase.",
       Msg.error "Error: + Failed to restore stash after rebase failure.",
       Msg.error
         "Error: + To recover your stashed changes, check \x27git stash list\x27."] := by
  have h := c5_single_restore_attempt ⟨some "abc", false, false, true, false, false⟩
    ⟨false, false⟩ ⟨5,0,0,1,0,3,0,0,""⟩ rfl rfl rfl rfl (by decide)
  exact ⟨h.1, h.2.1, h.2.2.2 (by decide)⟩

/-- Counterexample for claim C2: the scan in `Git.stash_id` selects a
record by substring containment over the whole listing line, not by
annotation equality. Here the record's annotation differs from the marker
string but merely contains it, yet its index token is selected and the
cleanup policy passes it to drop-shelf-entry. -/
theorem c2_containment_counterexample :
    stash_id_lines (linesOf [⟨"stash@\x7b0\x7d", "On main: retry git-re--stash later"⟩]) =
      some "stash@\x7b0\x7d" ∧
    ("On main: retry git-re--stash later" ≠ STASH_NAME) ∧
    GitOp.dropStash "stash@\x7b0\x7d" ∈
      (cleanup_stash ⟨false, false⟩
        ⟨0, 0, 0, 1, 0, 0, 0, 0,
          "stash@\x7b0\x7d: On main: retry git-re--stash later\n"⟩).ops := by
  refine ⟨by decide, by decide, ?_⟩
  rw [cleanup_stash_ops_live ⟨false, false⟩ _ rfl]
  simp [cleanupDropIds]
  decide

/-- Claim C2 as amended: for every shelf listing the cleanup policy
selects the first line (scanning from index 0) that contains the fixed
marker string as a substring, and passes that line's text before its first
colon (the record's index token) verbatim to drop-shelf-entry; lines not
containing the marker are never selected. -/
theorem c2_amended_first_containing_line (ctx : Ctx) (env : GitEnv) (t : String)
    (hdr : ctx.dryRun = false)
    (h : stash_id_lines (splitlines env.stashListOut) = some t) :
    (∃ pre l post, splitlines env.stashListOut = pre ++ l :: post ∧
       (∀ x ∈ pre, markerIn x = false) ∧ markerIn l = true ∧ pySplitFirst l = t) ∧
    GitOp.dropStash t ∈ (cleanup_stash ctx env).ops := by
  refine ⟨stash_id_lines_some_decomp _ t h, ?_⟩
  simp [cleanup_stash_ops_live ctx env hdr, cleanupDropIds, h]

/-- Witness for the amended C2 at a concrete listing whose marker entry
sits below an unrelated entry. -/
theorem c2_amended_first_containing_line_witness :
    (∃ pre l post,
       splitlines "stash@\x7b0\x7d: WIP\nstash@\x7b1\x7d: git-re--stash\n" =
         pre ++ l :: post ∧
       (∀ x ∈ pre, markerIn x = false) ∧ markerIn l = true ∧
       pySplitFirst l = "stash@\x7b1\x7d") ∧
    GitOp.dropStash "stash@\x7b1\x7d" ∈
      (cleanup_stash ⟨false, false⟩
        ⟨0, 0, 0, 1, 0, 0, 0, 0,
          "stash@\x7b0\x7d: WIP\nstash@\x7b1\x7d: git-re--stash\n"⟩).ops :=
  c2_amended_first_containing_line ⟨false, false⟩
    ⟨0, 0, 0, 1, 0, 0, 0, 0, "stash@\x7b0\x7d: WIP\nstash@\x7b1\x7d: git-re--stash\n"⟩
    "stash@\x7b1\x7d" rfl (by decide)

/-- Claim C10: one invocation of the cleanup policy issues at most one
drop-shelf-entry process; any issued drop targets the first listed line
containing the marker (its index token); and a drop failure is never
propagated — the Finalize flow still succeeds when only the cleanup drop
fails. -/
theorem c10_cleanup_single_drop (ctx : Ctx) (env : GitEnv) :
    ((cleanup_stash ctx env).ops.filter isDropOp).length ≤ 1 ∧
    (∀ t, GitOp.dropStash t ∈ (cleanup_stash ctx env).ops →
      ∃ pre l post, splitlines env.stashListOut = pre ++ l :: post ∧
        (∀ x ∈ pre, markerIn x = false) ∧ markerIn l = true ∧ pySplitFirst l = t) ∧
    (ctx.dryRun = false → env.amendEC = 0 → env.continueEC = 0 →
      (done_flow ctx env).exit = 0) := by
  cases hd : ctx.dryRun with
  | true =>
    refine ⟨?_, ?_, ?_⟩
    · simp [cleanup_stash_ops_dry ctx env hd]
    · intro t ht
      rw [cleanup_stash_ops_dry ctx env hd] at ht
      simp at ht
    · intro hf
      simp at hf
  | false =>
    refine ⟨?_, ?_, ?_⟩
    · rw [cleanup_stash_ops_live ctx env hd]
      cases hs : stash_id_lines (splitlines env.stashListOut) <;>
        simp [cleanupDropIds, hs, isDropOp]
    · intro t ht
      rw [cleanup_stash_ops_live ctx env hd] at ht
      cases hs : stash_id_lines (splitlines env.stashListOut) with
      | none => simp [cleanupDropIds, hs] at ht
      | some u =>
        simp [cleanupDropIds, hs] at ht
        subst ht
        exact stash_id_lines_some_decomp _ _ hs
    · intro _ hA hC
      simp [done_flow, amend_commit, continue_rebase, run_git_live _ _ _ _ hd,
        ecOf, hA, hC, logInfo]

/-- Witness for C10 at a concrete environment whose listing contains a
marker entry and whose drop operation fails. -/
theorem c10_cleanup_single_drop_witness :
    (((cleanup_stash ⟨false, false⟩
        ⟨0, 0, 0, 1, 0, 0, 4, 0, "stash@\x7b0\x7d: git-re--stash\n"⟩).ops.filter
          isDropOp).length ≤ 1) ∧
    (∃ pre l post,
       splitlines "stash@\x7b0\x7d: git-re--stash\n" = pre ++ l :: post ∧
       (∀ x ∈ pre, markerIn x = false) ∧ markerIn l = true ∧
       pySplitFirst l = "stash@\x7b0\x7d") ∧
    (done_flow ⟨false, false⟩
        ⟨0, 0, 0, 1, 0, 0, 4, 0, "stash@\x7b0\x7d: git-re--stash\n"⟩).exit = 0 := by
  have h := c10_cleanup_single_drop ⟨false, false⟩
    ⟨0, 0, 0, 1, 0, 0, 4, 0, "stash@\x7b0\x7d: git-re--stash\n"⟩
  exact ⟨h.1, h.2.1 "stash@\x7b0\x7d" (by decide), h.2.2 rfl rfl rfl⟩

theorem stash_id_lines_cons (l : String) (ls : List String) :
    stash_id_lines (l :: ls) =
      if markerIn l then some (pySplitFirst l) else stash_id_lines ls := rfl

theorem cleanupDropIds_of_none {lines : List String}
    (h : stash_id_lines lines = none) : cleanupDropIds lines = [] := by
  simp [cleanupDropIds, h]

theorem cleanupDropIds_of_some {lines : List String} {t : String}
    (h : stash_id_lines lines = some t) : cleanupDropIds lines = [t] := by
  simp [cleanupDropIds, h]

theorem afterCleanup_of_none {es : List StashEntry}
    (h : stash_id_lines (linesOf es) = none) : afterCleanup es = es := by
  simp [afterCleanup, h]

theorem afterCleanup_of_some {es : List StashEntry} {t : String}
    (h : stash_id_lines (linesOf es) = some t) :
    afterCleanup es = gitDropStash es t := by
  simp [afterCleanup, h]

/-- Core idempotence argument for the cleanup policy: on a well-formed
listing containing at most one marker line, after one cleanup whose drop
succeeds, a further cleanup finds no marker entry and issues no drop. -/
theorem cleanup_idem_aux : ∀ es : List StashEntry,
    (linesOf es).countP (fun l => markerIn l) ≤ 1 →
    (es.map StashEntry.tok).Nodup →
    (∀ e ∈ es, pySplitFirst (entryLine e) = e.tok) →
    cleanupDropIds (linesOf (afterCleanup es)) = [] := by
  intro es
  induction es with
  | nil =>
    intro _ _ _
    rw [afterCleanup_of_none (by rw [linesOf_nil]; rfl)]
    exact cleanupDropIds_of_none (by rw [linesOf_nil]; rfl)
  | cons e es ih =>
    intro h1 h2 h3
    have h3e : pySplitFirst (entryLine e) = e.tok := h3 e (by simp)
    have h3t : ∀ x ∈ es, pySplitFirst (entryLine x) = x.tok :=
      fun x hx => h3 x (by simp [hx])
    have h2' : e.tok ∉ es.map StashEntry.tok ∧ (es.map StashEntry.tok).Nodup := by
      simpa [List.nodup_cons] using h2
    cases hm : markerIn (entryLine e) with
    | true =>
      have hsid : stash_id_lines (linesOf (e :: es)) = some e.tok := by
        rw [linesOf_cons, stash_id_lines_cons]
        simp [hm, h3e]
      have hcount : (linesOf es).countP (fun l => markerIn l) = 0 := by
        rw [linesOf_cons, List.countP_cons_of_pos _ _ (by simpa using hm)] at h1
        omega
      have hall : ∀ l ∈ linesOf es, markerIn l = false := by
        intro l hl
        have := List.countP_eq_zero.mp hcount l hl
        simpa using this
      have hnone := (stash_id_lines_eq_none _).mpr hall
      have hdrop : gitDropStash (e :: es) e.tok = es := by
        simp [gitDropStash, List.eraseP_cons]
      rw [afterCleanup_of_some hsid, hdrop]
      exact cleanupDropIds_of_none hnone
    | false =>
      have h1' : (linesOf es).countP (fun l => markerIn l) ≤ 1 := by
        rw [linesOf_cons, List.countP_cons_of_neg _ _ (by simp [hm])] at h1
        exact h1
      cases hsid : stash_id_lines (linesOf es) with
      | none =>
        have hsid2 : stash_id_lines (linesOf (e :: es)) = none := by
          rw [linesOf_cons, stash_id_lines_cons]
          simp [hm, hsid]
        rw [afterCleanup_of_none hsid2]
        exact cleanupDropIds_of_none hsid2
      | some t =>
        obtain ⟨pre, l, post, he1, he2, he3, he4⟩ := stash_id_lines_some_decomp _ t hsid
        have hlmem : l ∈ linesOf es := by rw [he1]; simp
        obtain ⟨e', he'mem, he'eq⟩ := List.mem_map.mp hlmem
        have ht : t = e'.tok := by
          rw [← he4, ← he'eq]
          exact h3t e' he'mem
        have hnoteq : e.tok ≠ t := by
          rw [ht]
          intro hEq
          exact h2'.1 (hEq ▸ List.mem_map_of_mem StashEntry.tok he'mem)
        have hbeq : (e.tok == t) = false := beq_eq_false_iff_ne.mpr hnoteq
        have hdrop : gitDropStash (e :: es) t = e :: gitDropStash es t := by
          simp [gitDropStash, List.eraseP_cons, hbeq]
        have hrec := ih h1' h2'.2 h3t
        rw [afterCleanup_of_some hsid] at hrec
        have hnone2 : stash_id_lines (linesOf (gitDropStash es t)) = none := by
          cases hq : stash_id_lines (linesOf (gitDropStash es t)) with
          | none => rfl
          | some w =>
            rw [cleanupDropIds_of_some hq] at hrec
            exact absurd hrec (by simp)
        have hsid2 : stash_id_lines (linesOf (e :: es)) = some t := by
          rw [linesOf_cons, stash_id_lines_cons]
          simp [hm, hsid]
        rw [afterCleanup_of_some hsid2, hdrop]
        refine cleanupDropIds_of_none ?_
        rw [linesOf_cons, stash_id_lines_cons]
        simp [hm, hnone2]

/-- Counterexample for claim C9: with two leftover marker-annotated
entries on the stack (and no new entries created between invocations), the
first cleanup drops only the first marker entry, so a second cleanup
issues another drop — the policy is not idempotent as claimed. -/
theorem c9_idempotence_counterexample :
    cleanupDropIds (linesOf (afterCleanup
      [⟨"stash@\x7b0\x7d", "git-re--stash"⟩, ⟨"stash@\x7b1\x7d", "git-re--stash"⟩])) =
      ["stash@\x7b1\x7d"] ∧
    cleanupDropIds (linesOf (afterCleanup
      [⟨"stash@\x7b0\x7d", "git-re--stash"⟩, ⟨"stash@\x7b1\x7d", "git-re--stash"⟩])) ≠
      [] := by
  constructor <;> decide

/-- Claim C9 as amended: on a well-formed listing (distinct index tokens,
each token being its line's text before the first colon) containing at
most one marker-containing line, the cleanup policy is idempotent — after
one invocation whose drop succeeds, a second invocation with no new
entries created in between issues zero drop operations. The second
conjunct ties `cleanupDropIds` to the code: in live mode it is exactly the
list of drop processes `cleanup_stash` executes. -/
theorem c9_amended_idempotent (es : List StashEntry)
    (h1 : (linesOf es).countP (fun l => markerIn l) ≤ 1)
    (h2 : (es.map StashEntry.tok).Nodup)
    (h3 : ∀ e ∈ es, pySplitFirst (entryLine e) = e.tok) :
    cleanupDropIds (linesOf (afterCleanup es)) = [] ∧
    (∀ ctx env, ctx.dryRun = false →
      (cleanup_stash ctx env).ops.filter isDropOp =
        (cleanupDropIds (splitlines env.stashListOut)).map GitOp.dropStash) := by
  refine ⟨cleanup_idem_aux es h1 h2 h3, ?_⟩
  intro ctx env hdr
  rw [cleanup_stash_ops_live ctx env hdr]
  cases hs : stash_id_lines (splitlines env.stashListOut) <;>
    simp [cleanupDropIds, hs, isDropOp]

/-- Witness for the amended C9 at a concrete two-entry stack with a single
marker entry. -/
theorem c9_amended_idempotent_witness :
    cleanupDropIds (linesOf (afterCleanup
      [⟨"stash@\x7b0\x7d", "WIP"⟩, ⟨"stash@\x7b1\x7d", "git-re--stash"⟩])) = [] ∧
    (∀ ctx env, ctx.dryRun = false →
      (cleanup_stash ctx env).ops.filter isDropOp =
        (cleanupDropIds (splitlines env.stashListOut)).map GitOp.dropStash) :=
  c9_amended_idempotent
    [⟨"stash@\x7b0\x7d", "WIP"⟩, ⟨"stash@\x7b1\x7d", "git-re--stash"⟩]
    (by decide) (by decide) (by decide)

/-- Dry-run Finalize flow: nothing executed and the flow reports success
(every adapter comparison against `FAILED` is false for the `None`
return). -/
theorem done_flow_dry (ctx : Ctx) (env : GitEnv) (h : ctx.dryRun = true) :
    (done_flow ctx env).exit = 0 ∧ (done_flow ctx env).eff.ops = [] := by
  simp [done_flow, amend_commit, continue_rebase, run_git_dry _ _ _ _ h,
    cleanup_stash, stash_id_dry _ _ h, logInfo]

/-- Dry-run Start-Edit flow: nothing executed and the flow reports
success. -/
theorem edit_flow_dry (args : Args) (ctx : Ctx) (env : GitEnv)
    (h : ctx.dryRun = true) :
    (edit_flow args ctx env).exit = 0 ∧ (edit_flow args ctx env).eff.ops = [] := by
  cases hs : args.stash <;>
    simp [edit_flow, edit_flow_rebase, has_staged, stash_staged, rebase_edit,
      pop_stash, run_git_dry _ _ _ _ h, hs, logInfo,
      (done_flow_dry ctx env h).1, (done_flow_dry ctx env h).2]

/-- Dry-run Cancel flow: nothing executed and the flow reports success. -/
theorem abort_flow_dry (ctx : Ctx) (env : GitEnv) (h : ctx.dryRun = true) :
    (abort_flow ctx env).exit = 0 ∧ (abort_flow ctx env).eff.ops = [] := by
  simp [abort_flow, abort_rebase, run_git_dry _ _ _ _ h, cleanup_stash,
    stash_id_dry _ _ h, logInfo]

/-- Claim C8: with dry-run enabled, the command runner executes no process
and logs the fully-quoted command as a debug line with the `"# "` prefix
(dry-run forces verbose logging); any invocation of `main` executes zero
processes; and whenever the live invocation would exit 0, the dry-run
invocation of the same arguments also exits 0. -/
theorem c8_dry_run (args : Args) (env : GitEnv) (op : GitOp) :
    (args.dryRun = true →
      run_git_raw (mkCtx args) env op =
        (none, ⟨[], [Msg.debug ("# " ++ formattedCmd op)]⟩)) ∧
    (args.dryRun = true → (main args env).eff.ops = []) ∧
    ((main { args with dryRun := false } env).exit = 0 →
      (main { args with dryRun := true } env).exit = 0) := by
  refine ⟨?_, ?_, ?_⟩
  · intro h
    rw [run_git_raw_dry _ _ _ (by simp [mkCtx, h])]
    simp [logDebug, mkCtx, h]
  · intro h
    have hm : (mkCtx args).dryRun = true := by simp [mkCtx, h]
    by_cases ha : args.abort = true <;> by_cases hd : args.done = true <;>
      by_cases hc : commitTruthy args.commit = true <;>
      by_cases hs : args.stash = true <;>
      simp [main, ha, hd, hc, hs, logError,
        (abort_flow_dry (mkCtx args) env hm).2,
        (done_flow_dry (mkCtx args) env hm).2,
        (edit_flow_dry args (mkCtx args) env hm).2]
  · intro h0
    have hm : (mkCtx { args with dryRun := true }).dryRun = true := by simp [mkCtx]
    by_cases ha : args.abort = true <;> by_cases hd : args.done = true <;>
      by_cases hc : commitTruthy args.commit = true <;>
      by_cases hs : args.stash = true <;>
      simp only [main, mkCtx, logError, ha, hd, hc, hs, Bool.false_eq_true,
        if_true, if_false] at h0 ⊢ <;>
      first
        | exact (abort_flow_dry _ env rfl).1
        | exact (done_flow_dry _ env rfl).1
        | exact (edit_flow_dry _ _ env rfl).1
        | simp at h0

/-- Witness for C8 at a concrete argument vector, environment, and
operation. -/
theorem c8_dry_run_witness :
    (run_git_raw (mkCtx ⟨some "abc", false, false, false, false, true⟩)
        ⟨0,0,0,1,0,0,0,0,""⟩ GitOp.popStash =
      (none, ⟨[], [Msg.debug ("# " ++ formattedCmd GitOp.popStash)]⟩)) ∧
    (main ⟨some "abc", false, false, false, false, true⟩
        ⟨0,0,0,1,0,0,0,0,""⟩).eff.ops = [] ∧
    (main { (⟨some "abc", false, false, false, false, true⟩ : Args) with
        dryRun := true } ⟨0,0,0,1,0,0,0,0,""⟩).exit = 0 := by
  refine ⟨(c8_dry_run ⟨some "abc", false, false, false, false, true⟩
      ⟨0,0,0,1,0,0,0,0,""⟩ GitOp.popStash).1 rfl,
    (c8_dry_run ⟨some "abc", false, false, false, false, true⟩
      ⟨0,0,0,1,0,0,0,0,""⟩ GitOp.popStash).2.1 rfl,
    (c8_dry_run ⟨some "abc", false, false, false, false, true⟩
      ⟨0,0,0,1,0,0,0,0,""⟩ GitOp.popStash).2.2 (by decide)⟩

/-- Claim C1 is violated by the code: in a live Start-Edit invocation with
shelving requested and staged changes present, the shelve-push process is
the second process executed, immediately after the staged-diff check —
no shelf listing (the first step of the cleanup policy) precedes it, so
the cleanup policy is not invoked before the shelve. (The repository's own
test `test_stash_mode_cleanup_called_before_stash` and the spec require
the cleanup to run first; the full trace shows the only cleanup runs at
the end of the chained Finalize flow, after the shelve.) -/
theorem c1_shelve_without_prior_cleanup :
    ((edit_flow ⟨some "abc", false, false, true, false, false⟩ ⟨false, false⟩
        ⟨0, 0, 0, 1, 0, 0, 0, 0, ""⟩).eff.ops =
      [GitOp.hasStaged, GitOp.stashStaged, GitOp.rebaseEdit "abc",
       GitOp.popStash, GitOp.amendCommit, GitOp.continueRebase,
       GitOp.stashList]) ∧
    GitOp.stashList ∉
      ((edit_flow ⟨some "abc", false, false, true, false, false⟩ ⟨false, false⟩
        ⟨0, 0, 0, 1, 0, 0, 0, 0, ""⟩).eff.ops.take 2) ∧
    ((edit_flow ⟨some "abc", false, false, true, false, false⟩ ⟨false, false⟩
        ⟨0, 0, 0, 1, 0, 0, 0, 0, ""⟩).eff.ops.take 2 =
      [GitOp.hasStaged, GitOp.stashStaged]) := by
  refine ⟨?_, by decide, by decide⟩
  decide

end GitRe
